import Mathlib

/-!
Shallow embedding of `src/doveadm/doveadm-mail-server.c` (doveadm's
distributed mail-command dispatcher): routing resolution, the per-server
connection pool and pending-user queue, the redirect path, and exit-code
aggregation, together with theorems about them.
-/

set_option linter.unusedVariables false

/-! ### Constants from the source -/

/-- `#define DOVEADM_SERVER_QUEUE_MAX 16` (doveadm-mail-server.c line 23). -/
def DOVEADM_SERVER_QUEUE_MAX : Nat := 16

/-- `EX_NOUSER` from sysexits.h (standard value 67), used at lines 166-171. -/
def EX_NOUSER : Nat := 67

/-- `EX_TEMPFAIL` from sysexits.h (standard value 75), used at line 180. -/
def EX_TEMPFAIL : Nat := 75

/-- Modelled from the spec: the reply status carries "one fatal
`disconnected` sentinel" (`SERVER_EXIT_CODE_DISCONNECTED`, declared in
server-connection.h which is outside src/). Only its distinctness from the
other codes matters; a concrete value is fixed for executability. -/
def SERVER_EXIT_CODE_DISCONNECTED : Nat := 1000

/-- Modelled from the spec: the reply status carries "one referral code
whose payload is the redirect destination string" (`DOVEADM_EX_REFERRAL`,
declared outside src/). Only its distinctness from the other codes matters;
a concrete value is fixed for executability. -/
def DOVEADM_EX_REFERRAL : Nat := 1002

/-! ### SSL flags

`enum doveadm_proxy_ssl_flags` is a bitmask (`PROXY_SSL_FLAG_YES`,
`PROXY_SSL_FLAG_STARTTLS`, `PROXY_SSL_FLAG_ANY_CERT`); it is embedded as a
record of the three independent bits. -/

structure SslFlags where
  yes : Bool
  starttls : Bool
  any_cert : Bool
deriving DecidableEq, Repr

/-- The zero bitmask (`enum doveadm_proxy_ssl_flags ssl_flags = 0`). -/
def SslFlags.zero : SslFlags := ⟨false, false, false⟩

/-! ### Settings and auth-lookup inputs -/

/-- The `doveadm_settings` fields this unit reads. -/
structure DoveadmSettings where
  doveadm_port : Nat
  doveadm_ssl : String
  doveadm_socket_path : String
  doveadm_worker_count : Nat
deriving Repr

/-- Outcome of `auth_master_pass_lookup` (external collaborator): a
negative return with an error message, zero for user-not-found, or a
positive return with the passdb field list. -/
inductive LookupResult where
  | err (msg : String)
  | notFound
  | found (fields : List String)
deriving Repr

/-! ### Field splitting (`strchr(fields[i], '=')`, lines 309-316) -/

/-- Split a character list at its first `=`: `none` when no `=` occurs,
otherwise the part before and the part after the first `=`. This is the
`strchr`/`t_strdup_until` logic of lines 309-316. -/
def splitKVAux : List Char → Option (List Char × List Char)
  | [] => none
  | c :: rest =>
    if c = '=' then some ([], rest)
    else
      match splitKVAux rest with
      | none => none
      | some (k, v) => some (c :: k, v)

/-- `key`/`value` of one passdb field: bare key has value `""`. -/
def splitField (s : String) : String × String :=
  match splitKVAux s.toList with
  | none => (s, "")
  | some (k, v) => (⟨k⟩, ⟨v⟩)

/-- Loop state of the field-parsing loop of
`doveadm_mail_server_user_get_host` (lines 304-343): the local variables
`proxy_host`, `proxy_hostip`, `proxying`, `nologin`, `proxy_port`, together
with the outputs `*user_r` and `*ssl_flags_r` that the loop writes. -/
structure FieldState where
  proxy_host : Option String
  proxy_hostip : Option String
  proxying : Bool
  nologin : Bool
  proxy_port : Nat
  user : String
  ssl_flags : SslFlags
deriving DecidableEq, Repr

/-- Initial loop state (lines 304-305): no host, not proxying, port
defaulted to `doveadm_port`, user and ssl flags as set before the loop. -/
def FieldState.init (set : DoveadmSettings) (username : String)
    (ssl0 : SslFlags) : FieldState :=
  { proxy_host := none, proxy_hostip := none, proxying := false,
    nologin := false, proxy_port := set.doveadm_port,
    user := username, ssl_flags := ssl0 }

/-- One iteration of the field loop (lines 306-343). `p2` embeds the
external `net_str2port`. -/
def applyField (p2 : String → Option Nat) (st : FieldState) (f : String) :
    FieldState :=
  let kv := splitField f
  let key := kv.1
  let value := kv.2
  if key = "proxy" then { st with proxying := true }
  else if key = "nologin" then { st with nologin := true }
  else if key = "host" then { st with proxy_host := some value }
  else if key = "hostip" then { st with proxy_hostip := some value }
  else if key = "user" then { st with user := value }
  else if key = "destuser" then { st with user := value }
  else if key = "port" then
    match p2 value with
    | some p => { st with proxy_port := p }
    | none => { st with proxy_port := 0 }
  else if key = "ssl" then
    { st with ssl_flags :=
        { st.ssl_flags with
          yes := true
          any_cert := st.ssl_flags.any_cert || decide (value = "any-cert") } }
  else if key = "starttls" then
    { st with ssl_flags :=
        { yes := true, starttls := true,
          any_cert := st.ssl_flags.any_cert || decide (value = "any-cert") } }
  else st

/-- The whole field loop: fold `applyField` over the passdb fields. -/
def parsePassFields (p2 : String → Option Nat) (set : DoveadmSettings)
    (username : String) (ssl0 : SslFlags) (fields : List String) :
    FieldState :=
  fields.foldl (applyField p2) (FieldState.init set username ssl0)

/-! ### The routing resolver -/

/-- Result record of `doveadm_mail_server_user_get_host`: the return value
and every output parameter. -/
structure GetHostResult where
  ret : Int
  user : String
  host : String
  port : Nat
  ssl_flags : SslFlags
  referral : Option String
  hostip : Option Nat
  error : Option String
deriving Repr

/-- A single-quote string built without a quote character. -/
def squote : String := (Char.ofNat 39).toString

/-- The `hostip` validation of lines 344-349: sets the output ip on a valid
value, or an error message and return value `-1` on an invalid one. `pip`
embeds the external `net_addr2ip`. -/
def hostipCheck (pip : String → Option Nat) (sock : String)
    (st : FieldState) : Option Nat × Option String × Int :=
  match st.proxy_hostip with
  | none => (none, none, 1)
  | some hip =>
    match pip hip with
    | some ip => (some ip, none, 1)
    | none =>
      (none,
       some (sock ++ " Invalid hostip value " ++ squote ++ hip ++ squote),
       -1)

/-- Naive substring test (`strstr`). -/
def strContains (hay needle : String) : Bool :=
  (List.range (hay.toList.length + 1)).any fun i =>
    needle.toList.isPrefixOf (hay.toList.drop i)

/-- The proxy-is-missing-destination-host error of lines 364-372. -/
def proxyMissingMsg (sock : String) : String :=
  let e := sock ++ ": Proxy is missing destination host"
  if strContains sock "/auth-userdb" then
    e ++ " (maybe set auth_socket_path=director-userdb)"
  else e

/-- The successful-lookup arm of `doveadm_mail_server_user_get_host`
(lines 303-377): parse the fields, validate `hostip`, then decide between
run-locally, referral, proxy-error and proxy. -/
def resolveFound (set : DoveadmSettings) (sock : String)
    (p2 pip : String → Option Nat) (username : String) (ssl0 : SslFlags)
    (fields : List String) : GetHostResult :=
  let st := parsePassFields p2 set username ssl0 fields
  let hc := hostipCheck pip sock st
  if st.proxying = false then
    if st.nologin = false then
      { ret := 0, user := st.user, host := set.doveadm_socket_path,
        port := set.doveadm_port, ssl_flags := st.ssl_flags,
        referral := none, hostip := hc.1, error := hc.2.1 }
    else
      match st.proxy_host with
      | none =>
        { ret := 0, user := st.user, host := set.doveadm_socket_path,
          port := set.doveadm_port, ssl_flags := st.ssl_flags,
          referral := none, hostip := hc.1, error := hc.2.1 }
      | some h =>
        { ret := 1, user := st.user, host := set.doveadm_socket_path,
          port := set.doveadm_port, ssl_flags := st.ssl_flags,
          referral := some (st.user ++ "@" ++ h), hostip := hc.1,
          error := hc.2.1 }
  else
    match st.proxy_host with
    | none =>
      { ret := -1, user := st.user, host := set.doveadm_socket_path,
        port := set.doveadm_port, ssl_flags := st.ssl_flags,
        referral := none, hostip := hc.1,
        error := some (proxyMissingMsg sock) }
    | some h =>
      { ret := hc.2.2, user := st.user,
        host := h ++ ":" ++ toString st.proxy_port,
        port := st.proxy_port, ssl_flags := st.ssl_flags,
        referral := none, hostip := hc.1, error := hc.2.1 }

/-- The SSL flags derived from `doveadm_ssl` before the lookup
(lines 274-277). -/
def sslFromSettings (set : DoveadmSettings) : SslFlags :=
  if set.doveadm_ssl = "ssl" then ⟨true, false, false⟩
  else if set.doveadm_ssl = "starttls" then ⟨true, true, false⟩
  else SslFlags.zero

/-- `doveadm_mail_server_user_get_host` (lines 248-380). `sock` is
`auth_master_get_socket_path(auth_conn)`; `lookup` the outcome of
`auth_master_pass_lookup`; `p2`/`pip` embed `net_str2port`/`net_addr2ip`.
With `doveadm_port = 0` the function returns 0 immediately; a lookup error
returns `-1` with a message naming the socket path; user-not-found keeps
the default host. -/
def doveadm_mail_server_user_get_host (set : DoveadmSettings)
    (username sock : String) (lookup : LookupResult)
    (p2 pip : String → Option Nat) : GetHostResult :=
  let base : GetHostResult :=
    { ret := 0, user := username, host := set.doveadm_socket_path,
      port := set.doveadm_port, ssl_flags := SslFlags.zero,
      referral := none, hostip := none, error := none }
  if set.doveadm_port = 0 then base
  else
    let ssl0 := sslFromSettings set
    match lookup with
    | .err msg =>
      { base with
        ssl_flags := ssl0
        ret := -1
        error := some (sock ++ ": " ++ msg ++
          " (to see if user is proxied, because doveadm_port is set)") }
    | .notFound => { base with ssl_flags := ssl0 }
    | .found fields => resolveFound set sock p2 pip username ssl0 fields

/-- Decimal digit accumulation for `netStr2portModel`. -/
def parseNatAux : List Char → Nat → Option Nat
  | [], acc => some acc
  | c :: rest, acc =>
    if '0' ≤ c ∧ c ≤ '9' then
      parseNatAux rest (acc * 10 + (c.toNat - 48))
    else none

/-- Modelled from the spec: the external decimal port parser
`net_str2port` (lib/net.c, outside src/) — parses a decimal number in the
port range, failing on anything else. Used only to instantiate the `p2`
parameter on concrete inputs. -/
def netStr2portModel (s : String) : Option Nat :=
  match s.toList with
  | [] => none
  | l =>
    match parseNatAux l 0 with
    | some n => if n ≤ 65535 then some n else none
    | none => none

/-- Hostname derivation of `doveadm_server_get` (lines 59-61): the part of
the name before the last colon, or the whole name when it has none. -/
def beforeLastColon : List Char → Option (List Char)
  | [] => none
  | c :: rest =>
    match beforeLastColon rest with
    | some pre => some (c :: pre)
    | none => if c = ':' then some [] else none

/-- `server->hostname` (lines 59-61). -/
def server_hostname (name : String) : String :=
  match beforeLastColon name.toList with
  | none => name
  | some pre => ⟨pre⟩

/-! ### Per-destination server state (`struct doveadm_server`)

A connection is opaque; the dispatcher only observes
`server_connection_is_idle`, so each pooled connection is embedded as its
idle flag (`true` = idle). -/

structure DoveadmServer where
  name : String
  hostname : String
  ip : Option Nat
  port : Nat
  ssl_flags : SslFlags
  connections : List Bool
  queue : List String
deriving DecidableEq, Repr

/-- A freshly created server record of `doveadm_server_get` (lines 56-67):
derived hostname, empty pool and queue. -/
def doveadm_server_new (name : String) : DoveadmServer :=
  { name := name, hostname := server_hostname name, ip := none, port := 0,
    ssl_flags := SslFlags.zero, connections := [], queue := [] }

/-- `doveadm_server_find_unused_conn` (lines 72-82) returns the first idle
connection; dispatching on it makes it busy. This marks the first idle
connection busy, which is the pool effect of handing that connection a
command. -/
def markFirstIdleBusy : List Bool → List Bool
  | [] => []
  | c :: rest => if c then false :: rest else c :: markFirstIdleBusy rest

/-- Whether `doveadm_server_find_unused_conn` finds a connection. -/
def hasIdleConn (s : DoveadmServer) : Bool := s.connections.any id

/-- `doveadm_server_have_used_connections` (lines 84-93). -/
def doveadm_server_have_used_connections (s : DoveadmServer) : Bool :=
  s.connections.any fun c => !c

/-- What `doveadm_mail_server_user` (lines 417-440) did with the user on
its dispatch path. -/
inductive DispatchOutcome where
  | dispatchedExisting
  | dispatchedNew
  | createFailed
  | enqueued (flushedFirst : Bool)
deriving DecidableEq, Repr

/-- `doveadm_server_flush_one` (lines 237-246): run the event loop (the
abstract `run`) at least once, repeating while the queue length is
unchanged, some connection is busy and no failure is observed; `failed`
embeds `DOVEADM_MAIL_SERVER_FAILED()`. `fuel` bounds the loop. -/
def doveadm_server_flush_one (run : DoveadmServer → DoveadmServer)
    (failed : DoveadmServer → Bool) (fuel : Nat) (s : DoveadmServer) :
    DoveadmServer :=
  go s.queue.length fuel s
where
  go (count : Nat) : Nat → DoveadmServer → DoveadmServer
    | fuel, s =>
      let s1 := run s
      if s1.queue.length = count ∧ doveadm_server_have_used_connections s1 ∧
          failed s1 = false then
        match fuel with
        | 0 => s1
        | fuel + 1 => go count fuel s1
      else s1

/-- The dispatch path of `doveadm_mail_server_user` (lines 417-440), after
routing resolved to remote host handling: reuse an idle connection, else
create one if the pool is below `I_MAX(doveadm_worker_count, 1)`
(`create_ok` embeds `server_connection_create` succeeding), else enqueue
the username — flushing the destination first when the queue is already at
`DOVEADM_SERVER_QUEUE_MAX`. -/
def doveadm_mail_server_user_dispatch (worker_count : Nat) (create_ok : Bool)
    (flush : DoveadmServer → DoveadmServer) (user : String)
    (s : DoveadmServer) : DoveadmServer × DispatchOutcome :=
  if hasIdleConn s then
    ({ s with connections := markFirstIdleBusy s.connections },
     .dispatchedExisting)
  else if s.connections.length < max worker_count 1 then
    if create_ok then
      ({ s with connections := s.connections ++ [false] }, .dispatchedNew)
    else (s, .createFailed)
  else
    let flushedFirst := decide (s.queue.length ≥ DOVEADM_SERVER_QUEUE_MAX)
    let s1 := if flushedFirst then flush s else s
    ({ s1 with queue := s1.queue ++ [user] }, .enqueued flushedFirst)

/-! ### Pending command and the redirect path -/

/-- `struct doveadm_mail_server_cmd` (lines 28-33): the input stream is
embedded as its current read offset (`none` = no input). -/
structure ServerCmd where
  username : String
  cmdline : String
  input : Option Nat
deriving DecidableEq, Repr

/-- `doveadm_cmd_redirect` (lines 109-146). `parse` embeds
`auth_proxy_parse_redirect` (destuser, host, ip, port); `getServer` the
registry lookup `doveadm_server_get`; `create_ok` whether
`server_connection_create` succeeds. On success the result is the new
destination's state after taking a connection, together with the command
line and the input offset handed to `server_connection_cmd`; `none` is the
`-1` failure return. The new destination inherits the original's SSL
flags, and its port unless the redirect carries a nonzero one; the input
stream is seeked to 0 before the re-dispatch. -/
def doveadm_cmd_redirect (parse : String → Option (String × String × Nat × Nat))
    (create_ok : Bool) (getServer : String → DoveadmServer)
    (orig : DoveadmServer) (cmd : ServerCmd) (destination : String) :
    Option (DoveadmServer × String × Option Nat) :=
  match parse destination with
  | none => none
  | some pr =>
    let port := pr.2.2.2
    let ns0 := getServer destination
    let ns : DoveadmServer :=
      { ns0 with
        ip := some pr.2.2.1
        ssl_flags := orig.ssl_flags
        port := if port ≠ 0 then port else orig.port }
    if hasIdleConn ns then
      some ({ ns with connections := markFirstIdleBusy ns.connections },
            cmd.cmdline, cmd.input.map fun _ => 0)
    else if create_ok then
      some ({ ns with connections := ns.connections ++ [false] },
            cmd.cmdline, cmd.input.map fun _ => 0)
    else none

/-! ### Reply handling (`doveadm_cmd_callback`) -/

/-- The exit-code aggregation of the reply switch in `doveadm_cmd_callback`
(lines 155-183): success, the disconnect sentinel and a referral leave the
aggregated code alone (the latter two return early and touch only
`internal_failure`); `EX_NOUSER` records itself only when no code is set;
any other failure overwrites when no code is set or when it is
`EX_TEMPFAIL`. -/
def doveadm_cmd_callback_exit_code (exit_code reply : Nat) : Nat :=
  if reply = 0 then exit_code
  else if reply = SERVER_EXIT_CODE_DISCONNECTED then exit_code
  else if reply = EX_NOUSER then
    if exit_code = 0 then EX_NOUSER else exit_code
  else if reply = DOVEADM_EX_REFERRAL then exit_code
  else if exit_code = 0 ∨ reply = EX_TEMPFAIL then reply
  else exit_code

/-- The queue-draining tail of `doveadm_cmd_callback` (lines 186-197): when
the queue is non-empty and an idle connection exists, pop the front
username and dispatch it there. Returns the new state and the dispatched
username, if any. -/
def doveadm_cmd_callback_drain (s : DoveadmServer) :
    DoveadmServer × Option String :=
  match s.queue with
  | [] => (s, none)
  | username :: rest =>
    if hasIdleConn s then
      ({ s with
         connections := markFirstIdleBusy s.connections
         queue := rest }, some username)
    else (s, none)

/-- One reply-completion event on a destination: the connection that
carried the completed command (index `i`) becomes idle again, then the
callback drains the queue. -/
def callbackStep (i : Nat) (s : DoveadmServer) :
    DoveadmServer × Option String :=
  doveadm_cmd_callback_drain
    { s with connections := s.connections.set i true }

/-- A sequence of reply-completion events (by completed-connection index),
collecting the usernames dispatched from the queue in order. -/
def callbackTrace : List Nat → DoveadmServer → DoveadmServer × List String
  | [], s => (s, [])
  | i :: evs, s =>
    let r1 := callbackStep i s
    let r2 := callbackTrace evs r1.1
    (r2.1, r1.2.toList ++ r2.2)

/-! ### Helper lemmas -/

theorem markFirstIdleBusy_length (l : List Bool) :
    (markFirstIdleBusy l).length = l.length := by
  induction l with
  | nil => rfl
  | cons c rest ih => cases c <;> simp [markFirstIdleBusy, ih]

theorem splitKVAux_append (l1 l2 : List Char) (h : '=' ∉ l1) :
    splitKVAux (l1 ++ '=' :: l2) = some (l1, l2) := by
  induction l1 with
  | nil => simp [splitKVAux]
  | cons c rest ih =>
    simp only [List.mem_cons, not_or] at h
    have hc : ¬ c = '=' := fun hc => h.1 hc.symm
    simp [splitKVAux, hc, ih h.2]

theorem splitField_append (k v : String) (h : '=' ∉ k.toList) :
    splitField (k ++ "=" ++ v) = (k, v) := by
  have hl : (k ++ "=" ++ v).toList = k.toList ++ '=' :: v.toList := by
    simp [String.toList, String.data_append]
  rw [splitField, hl, splitKVAux_append _ _ h]
  rfl

theorem tempfail_absorbs (r : Nat) :
    doveadm_cmd_callback_exit_code EX_TEMPFAIL r = EX_TEMPFAIL := by
  simp only [doveadm_cmd_callback_exit_code, EX_TEMPFAIL, EX_NOUSER,
    SERVER_EXIT_CODE_DISCONNECTED, DOVEADM_EX_REFERRAL]
  split_ifs with h1 h2 h3 h4 h5 <;> simp_all

/-! ### Claim theorems -/

/-- C3: exit-code aggregation is monotonic with priority — once the
aggregated exit code equals `EX_TEMPFAIL`, no later non-fatal reply
(one that is not the disconnect sentinel) changes it; and an `EX_NOUSER`
reply sets the aggregated exit code only when it is still unset (zero). -/
theorem exit_code_aggregation_monotonic :
    (∀ rs : List Nat, (∀ r ∈ rs, r ≠ SERVER_EXIT_CODE_DISCONNECTED) →
       rs.foldl doveadm_cmd_callback_exit_code EX_TEMPFAIL = EX_TEMPFAIL) ∧
    (∀ c : Nat, doveadm_cmd_callback_exit_code c EX_NOUSER =
       if c = 0 then EX_NOUSER else c) := by
  constructor
  · intro rs h
    induction rs with
    | nil => rfl
    | cons r rest ih =>
      rw [List.foldl_cons, tempfail_absorbs]
      exact ih fun x hx => h x (List.mem_cons_of_mem _ hx)
  · intro c
    simp only [doveadm_cmd_callback_exit_code, EX_TEMPFAIL, EX_NOUSER,
      SERVER_EXIT_CODE_DISCONNECTED, DOVEADM_EX_REFERRAL]
    split_ifs with h1 h2 h3 h4 h5 <;> simp_all

/-- Witness for C3 at a concrete reply sequence. -/
theorem exit_code_aggregation_monotonic_witness :
    [EX_NOUSER, 9, 75].foldl doveadm_cmd_callback_exit_code EX_TEMPFAIL =
      EX_TEMPFAIL :=
  exit_code_aggregation_monotonic.1 [EX_NOUSER, 9, 75] (by decide)

/-- C2 (counterexample): starting from an unset exit code, the reply
sequence `EX_NOUSER` then `EX_TEMPFAIL` leaves the aggregate at
`EX_TEMPFAIL`, not at the first-recorded `EX_NOUSER` — the claim that a
temporary failure never overrides a first-recorded no-such-user code is
false on the code (line 180 overwrites on `EX_TEMPFAIL`). -/
theorem nouser_then_tempfail_is_overridden :
    [EX_NOUSER, EX_TEMPFAIL].foldl doveadm_cmd_callback_exit_code 0 =
      EX_TEMPFAIL ∧ EX_TEMPFAIL ≠ EX_NOUSER := by decide

/-- C2 (amended): a temporary-failure reply overrides any previously
recorded exit code — including a first-recorded `EX_NOUSER` — while a
generic failure only sets the code when it is unset. -/
theorem tempfail_overrides_any_recorded_code :
    (∀ c : Nat, doveadm_cmd_callback_exit_code c EX_TEMPFAIL = EX_TEMPFAIL) ∧
    [EX_NOUSER, EX_TEMPFAIL].foldl doveadm_cmd_callback_exit_code 0 =
      EX_TEMPFAIL := by
  constructor
  · intro c
    simp only [doveadm_cmd_callback_exit_code, EX_TEMPFAIL, EX_NOUSER,
      SERVER_EXIT_CODE_DISCONNECTED, DOVEADM_EX_REFERRAL]
    split_ifs with h1 h2 h3 h4 h5 <;> simp_all
  · decide

/-- C6: the resolver's round-trip examples. For user `alice`, fields
`proxy nologin=0 host=b destuser=carol port=2000` yield a proxy decision
(ret 1, no referral) with port 2000, target user `carol` and destination
identity `b:2000` whose hostname part is `b`; fields `nologin host=c`
yield the referral `alice@c`; fields with neither `proxy` nor `nologin`
yield run-locally (ret 0). -/
theorem get_host_round_trip :
    (let r := doveadm_mail_server_user_get_host ⟨9090, "", "/sock", 0⟩
       "alice" "/auth"
       (.found ["proxy", "nologin=0", "host=b", "destuser=carol",
                "port=2000"]) netStr2portModel (fun _ => none)
     r.ret = 1 ∧ r.referral = none ∧ r.port = 2000 ∧ r.user = "carol" ∧
       r.host = "b:2000" ∧ server_hostname r.host = "b") ∧
    (let r := doveadm_mail_server_user_get_host ⟨9090, "", "/sock", 0⟩
       "alice" "/auth" (.found ["nologin", "host=c"]) netStr2portModel
       (fun _ => none)
     r.ret = 1 ∧ r.referral = some "alice@c") ∧
    (let r := doveadm_mail_server_user_get_host ⟨9090, "", "/sock", 0⟩
       "alice" "/auth" (.found ["host=c"]) netStr2portModel
       (fun _ => none)
     r.ret = 0 ∧ r.referral = none) := by
  refine ⟨⟨?_, ?_, ?_, ?_, ?_, ?_⟩, ⟨?_, ?_⟩, ⟨?_, ?_⟩⟩ <;> rfl

/-- C5 (counterexample): a successful lookup whose fields contain an
unparsable `hostip` but neither `proxy` nor `nologin` does *not* resolve to
an error — the `!proxying` branch (lines 350-357) overwrites the `-1` set
by the hostip check (line 348), and the resolver returns 0 (run locally). -/
theorem invalid_hostip_without_proxy_not_error :
    (let r := doveadm_mail_server_user_get_host ⟨9090, "", "/sock", 0⟩
       "alice" "/auth" (.found ["hostip=zzz"]) netStr2portModel
       (fun _ => none)
     r.ret = 0 ∧ ¬ r.ret < 0) := by
  exact ⟨rfl, by decide⟩

theorem applyField_proxy_val (p2 : String → Option Nat) (st : FieldState)
    (v : String) :
    applyField p2 st ("proxy=" ++ v) = { st with proxying := true } := by
  have hs : splitField ("proxy=" ++ v) = ("proxy", v) :=
    splitField_append "proxy" v (by decide)
  unfold applyField
  rw [hs]
  rfl

theorem applyField_nologin_val (p2 : String → Option Nat) (st : FieldState)
    (v : String) :
    applyField p2 st ("nologin=" ++ v) = { st with nologin := true } := by
  have hs : splitField ("nologin=" ++ v) = ("nologin", v) :=
    splitField_append "nologin" v (by decide)
  unfold applyField
  rw [hs]
  rfl

theorem applyField_host_val (p2 : String → Option Nat) (st : FieldState)
    (v : String) :
    applyField p2 st ("host=" ++ v) = { st with proxy_host := some v } := by
  have hs : splitField ("host=" ++ v) = ("host", v) :=
    splitField_append "host" v (by decide)
  unfold applyField
  rw [hs]
  rfl

theorem applyField_port_bad (p2 : String → Option Nat) (st : FieldState)
    (v : String) (h : p2 v = none) :
    applyField p2 st ("port=" ++ v) = { st with proxy_port := 0 } := by
  have hs : splitField ("port=" ++ v) = ("port", v) :=
    splitField_append "port" v (by decide)
  unfold applyField
  rw [hs]
  simp only [h]
  rfl

/-- C9: the field parser treats `proxy` and `nologin` as true by presence
alone — for any value `v`, `proxy=v` sets the proxying flag and
`nologin=v` sets the nologin flag, so `nologin=0` acts exactly as a bare
`nologin` does. -/
theorem proxy_nologin_true_by_presence :
    ∀ (p2 : String → Option Nat) (st : FieldState) (v : String),
      applyField p2 st ("proxy=" ++ v) = { st with proxying := true } ∧
      applyField p2 st ("nologin=" ++ v) = { st with nologin := true } ∧
      applyField p2 st ("nologin=" ++ v) = applyField p2 st "nologin" := by
  intro p2 st v
  have hb : applyField p2 st "nologin" = { st with nologin := true } := rfl
  exact ⟨applyField_proxy_val p2 st v, applyField_nologin_val p2 st v,
    (applyField_nologin_val p2 st v).trans hb.symm⟩

/-- C10: an unparsable `port=` value is not reported as an error — with
fields `proxy`, `host=h` and an unparsable `port=pv`, the resolver returns
a proxy decision (ret 1, no error) whose proxy port is 0 and whose
destination identity string ends in `:0`. -/
theorem bad_port_silently_becomes_zero :
    ∀ (set : DoveadmSettings) (user sock h pv : String)
      (p2 pip : String → Option Nat),
      set.doveadm_port ≠ 0 → p2 pv = none →
      (let r := doveadm_mail_server_user_get_host set user sock
         (.found ["proxy", "host=" ++ h, "port=" ++ pv]) p2 pip
       r.ret = 1 ∧ r.error = none ∧ r.port = 0 ∧ r.host = h ++ ":0") := by
  intro set user sock h pv p2 pip hport hp2
  have h1 : applyField p2 (FieldState.init set user (sslFromSettings set))
      "proxy" =
      { FieldState.init set user (sslFromSettings set) with
        proxying := true } := rfl
  have hst : parsePassFields p2 set user (sslFromSettings set)
      ["proxy", "host=" ++ h, "port=" ++ pv] =
      { proxy_host := some h, proxy_hostip := none, proxying := true,
        nologin := false, proxy_port := 0, user := user,
        ssl_flags := sslFromSettings set } := by
    simp only [parsePassFields, List.foldl_cons, List.foldl_nil, h1,
      applyField_host_val, applyField_port_bad p2 _ pv hp2]
    rfl
  simp only [doveadm_mail_server_user_get_host, hport, if_false,
    resolveFound, hst, hostipCheck]
  norm_num
  rw [String.append_assoc]
  exact rfl

/-- C5 (amended): an invalid `hostip` yields an error (ret −1, message
naming the lookup socket path) only when the parsed fields select the
proxy-with-host path; the not-proxying branch overwrites the error
result (see the counterexample, where it yields run-locally). -/
theorem invalid_hostip_error_when_proxying :
    ∀ (set : DoveadmSettings) (user sock hip h : String)
      (fields : List String) (p2 pip : String → Option Nat),
      set.doveadm_port ≠ 0 →
      (parsePassFields p2 set user (sslFromSettings set) fields).proxying
        = true →
      (parsePassFields p2 set user (sslFromSettings set) fields).proxy_host
        = some h →
      (parsePassFields p2 set user (sslFromSettings set) fields).proxy_hostip
        = some hip →
      pip hip = none →
      (doveadm_mail_server_user_get_host set user sock (.found fields)
        p2 pip).ret = -1 ∧
      (doveadm_mail_server_user_get_host set user sock (.found fields)
        p2 pip).error =
        some (sock ++ " Invalid hostip value " ++ squote ++ hip ++ squote)
    := by
  intro set user sock hip h fields p2 pip hport hproxy hhost hhip hpip
  simp only [doveadm_mail_server_user_get_host, hport, if_false,
    resolveFound, hproxy, hhost, hostipCheck, hhip, hpip]
  norm_num

/-- Witness for C5's amended theorem at concrete fields. -/
theorem invalid_hostip_error_when_proxying_witness :
    (doveadm_mail_server_user_get_host ⟨9090, "", "/sock", 0⟩ "alice"
       "/auth" (.found ["proxy", "host=b", "hostip=zzz"]) netStr2portModel
       (fun _ => none)).ret = -1 ∧
    (doveadm_mail_server_user_get_host ⟨9090, "", "/sock", 0⟩ "alice"
       "/auth" (.found ["proxy", "host=b", "hostip=zzz"]) netStr2portModel
       (fun _ => none)).error =
      some ("/auth" ++ " Invalid hostip value " ++ squote ++ "zzz" ++
        squote) :=
  invalid_hostip_error_when_proxying ⟨9090, "", "/sock", 0⟩ "alice" "/auth"
    "zzz" "b" ["proxy", "host=b", "hostip=zzz"] netStr2portModel
    (fun _ => none) (by decide) rfl rfl rfl rfl

/-- Witness for C10 at concrete inputs. -/
theorem bad_port_silently_becomes_zero_witness :
    (let r := doveadm_mail_server_user_get_host ⟨9090, "", "/sock", 0⟩
       "alice" "/auth" (.found ["proxy", "host=" ++ "b", "port=" ++ "4x"])
       netStr2portModel (fun _ => none)
     r.ret = 1 ∧ r.error = none ∧ r.port = 0 ∧ r.host = "b" ++ ":0") :=
  bad_port_silently_becomes_zero ⟨9090, "", "/sock", 0⟩ "alice" "/auth"
    "b" "4x" netStr2portModel (fun _ => none) (by decide) rfl

/-- C1 (counterexample): the redirect path creates a connection on the new
destination without any worker-limit check (lines 131-138) — with a worker
count of 1 and the new destination's single connection busy, a successful
redirect leaves the destination with 2 live connections, exceeding
`I_MAX(doveadm_worker_count, 1) = 1`. -/
theorem redirect_exceeds_worker_limit :
    ∃ res : DoveadmServer × String × Option Nat,
      doveadm_cmd_redirect (fun _ => some ("u", "h", 7, 0)) true
        (fun _ =>
          { name := "h:5", hostname := "h", ip := none, port := 5,
            ssl_flags := SslFlags.zero, connections := [false],
            queue := [] })
        { name := "a:5", hostname := "a", ip := none, port := 5,
          ssl_flags := SslFlags.zero, connections := [false], queue := [] }
        { username := "u", cmdline := "line", input := none } "h:5" =
        some res ∧
      max 1 1 < res.1.connections.length := by
  refine ⟨({ name := "h:5", hostname := "h", ip := some 7, port := 5,
             ssl_flags := SslFlags.zero, connections := [false, false],
             queue := [] }, "line", none), rfl, ?_⟩
  decide

/-- C1 (amended): on the dispatch path of `doveadm_mail_server_user` the
live connection count never exceeds `I_MAX(doveadm_worker_count, 1)` —
provided the drain it may invoke preserves that bound — since a connection
is created only when the count is strictly below the limit; the redirect
path carries no such check (see the counterexample). -/
theorem dispatch_preserves_worker_limit :
    ∀ (wc : Nat) (ok : Bool) (flush : DoveadmServer → DoveadmServer)
      (user : String) (s : DoveadmServer),
      (∀ t, t.connections.length ≤ max wc 1 →
        (flush t).connections.length ≤ max wc 1) →
      s.connections.length ≤ max wc 1 →
      (doveadm_mail_server_user_dispatch wc ok flush user
        s).1.connections.length ≤ max wc 1 := by
  intro wc ok flush user s hflush hs
  unfold doveadm_mail_server_user_dispatch
  by_cases h1 : hasIdleConn s
  · simpa [h1, markFirstIdleBusy_length] using hs
  · by_cases h2 : s.connections.length < max wc 1
    · cases ok
      · simpa [h1, h2] using hs
      · simp only [h1, h2, Bool.false_eq_true, if_false, if_true,
          List.length_append, List.length_cons, List.length_nil]
        omega
    · by_cases h3 : s.queue.length ≥ DOVEADM_SERVER_QUEUE_MAX
      · simpa [h1, h2, h3] using hflush s hs
      · simpa [h1, h2, h3] using hs

/-- Witness for C1's amended theorem at a concrete state. -/
theorem dispatch_preserves_worker_limit_witness :
    (doveadm_mail_server_user_dispatch 1 true id "u"
      (doveadm_server_new "h")).1.connections.length ≤ max 1 1 :=
  dispatch_preserves_worker_limit 1 true id "u" (doveadm_server_new "h")
    (fun t ht => ht) (by decide)

/-- C4: a successful redirect of a pending command re-dispatches the
identical serialized command line, the new destination's TLS policy flags
equal the original destination's, its port is the redirect's port when
nonzero and the original's otherwise, and a carried input stream is
rewound to offset 0 before the re-dispatch. -/
theorem redirect_rebinds_identically :
    ∀ (parse : String → Option (String × String × Nat × Nat))
      (create_ok : Bool) (getServer : String → DoveadmServer)
      (orig : DoveadmServer) (cmd : ServerCmd) (dest du h : String)
      (ip port : Nat) (ns : DoveadmServer) (line : String)
      (off : Option Nat),
      parse dest = some (du, h, ip, port) →
      doveadm_cmd_redirect parse create_ok getServer orig cmd dest =
        some (ns, line, off) →
      line = cmd.cmdline ∧ ns.ssl_flags = orig.ssl_flags ∧
      ns.port = (if port ≠ 0 then port else orig.port) ∧
      off = cmd.input.map (fun _ => 0) ∧
      (cmd.input.isSome → off = some 0) := by
  intro parse create_ok getServer orig cmd dest du h ip port ns line off
    hparse hred
  unfold doveadm_cmd_redirect at hred
  rw [hparse] at hred
  simp only at hred
  have final : ∀ (A : DoveadmServer),
      some (A, cmd.cmdline, cmd.input.map fun _ => (0 : Nat)) =
        some (ns, line, off) →
      A.ssl_flags = orig.ssl_flags →
      A.port = (if port ≠ 0 then port else orig.port) →
      line = cmd.cmdline ∧ ns.ssl_flags = orig.ssl_flags ∧
      ns.port = (if port ≠ 0 then port else orig.port) ∧
      off = cmd.input.map (fun _ => 0) ∧
      (cmd.input.isSome → off = some 0) := by
    intro A hA hssl hport2
    have h3 := Option.some.inj hA
    have hns : A = ns := congrArg Prod.fst h3
    have h4 := congrArg Prod.snd h3
    have hline : cmd.cmdline = line := congrArg Prod.fst h4
    have hoff : (cmd.input.map fun _ => (0 : Nat)) = off :=
      congrArg Prod.snd h4
    refine ⟨hline.symm, hns ▸ hssl, hns ▸ hport2, hoff.symm,
      fun hsome => ?_⟩
    cases hi : cmd.input with
    | none => rw [hi] at hsome; simp at hsome
    | some a => rw [hi] at hoff; simpa using hoff.symm
  split at hred
  · rename_i hp
    split at hred
    · exact final _ hred rfl (if_pos hp).symm
    · split at hred
      · exact final _ hred rfl (if_pos hp).symm
      · exact Option.noConfusion hred
  · rename_i hp
    split at hred
    · exact final _ hred rfl (if_neg hp).symm
    · split at hred
      · exact final _ hred rfl (if_neg hp).symm
      · exact Option.noConfusion hred

/-- Witness for C4 at concrete inputs: a redirect with port 0 inherits the
original port 12 and rewinds the input from offset 5 to 0. -/
theorem redirect_rebinds_identically_witness :
    ("L" : String) = ("L" : String) ∧
    (⟨true, false, true⟩ : SslFlags) = ⟨true, false, true⟩ ∧
    (12 : Nat) = (if (0 : Nat) ≠ 0 then 0 else 12) ∧
    (some 0 : Option Nat) = (some 5 : Option Nat).map (fun _ => 0) ∧
    ((some 5 : Option Nat).isSome → (some 0 : Option Nat) = some 0) := by
  have h := redirect_rebinds_identically
    (fun _ => some ("du", "b", 3, 0)) true (fun _ => doveadm_server_new "b")
    { name := "a:12", hostname := "a", ip := none, port := 12,
      ssl_flags := ⟨true, false, true⟩, connections := [false],
      queue := [] }
    { username := "u", cmdline := "L", input := some 5 } "b" "du" "b" 3 0
    { name := "b", hostname := "b", ip := some 3, port := 12,
      ssl_flags := ⟨true, false, true⟩, connections := [false],
      queue := [] } "L" (some 0) rfl rfl
  exact ⟨h.1, h.2.1, h.2.2.1, h.2.2.2.1, h.2.2.2.2⟩

/-- C7: a username is appended to a destination's queue only after the
full-queue check — when `doveadm_mail_server_user` finds the queue at
`DOVEADM_SERVER_QUEUE_MAX` (16) or more entries it runs
`doveadm_server_flush_one` first and pushes the username afterwards; when
the queue is below 16 the username is appended directly. -/
theorem enqueue_runs_flush_when_full :
    ∀ (wc : Nat) (ok : Bool) (run : DoveadmServer → DoveadmServer)
      (failed : DoveadmServer → Bool) (fuel : Nat) (user : String)
      (s : DoveadmServer),
      hasIdleConn s = false →
      ¬ s.connections.length < max wc 1 →
      (doveadm_mail_server_user_dispatch wc ok
          (doveadm_server_flush_one run failed fuel) user s).2 =
        .enqueued (decide (s.queue.length ≥ DOVEADM_SERVER_QUEUE_MAX)) ∧
      (doveadm_mail_server_user_dispatch wc ok
          (doveadm_server_flush_one run failed fuel) user s).1.queue =
        (if s.queue.length ≥ DOVEADM_SERVER_QUEUE_MAX then
            doveadm_server_flush_one run failed fuel s
          else s).queue ++ [user] ∧
      (s.queue.length < DOVEADM_SERVER_QUEUE_MAX →
        (doveadm_mail_server_user_dispatch wc ok
            (doveadm_server_flush_one run failed fuel) user s).1.queue =
          s.queue ++ [user]) := by
  intro wc ok run failed fuel user s h1 h2
  have hd : doveadm_mail_server_user_dispatch wc ok
      (doveadm_server_flush_one run failed fuel) user s =
      (let s1 := if s.queue.length ≥ DOVEADM_SERVER_QUEUE_MAX then
          doveadm_server_flush_one run failed fuel s else s
       ({ s1 with queue := s1.queue ++ [user] },
        .enqueued (decide (s.queue.length ≥ DOVEADM_SERVER_QUEUE_MAX)))) := by
    unfold doveadm_mail_server_user_dispatch
    simp only [h1, Bool.false_eq_true, if_false, h2, decide_eq_true_eq]
  refine ⟨by rw [hd], by rw [hd], fun hlt => ?_⟩
  rw [hd]
  have hnot : ¬ s.queue.length ≥ DOVEADM_SERVER_QUEUE_MAX := not_le.mpr hlt
  simp only [hnot, if_false]

/-- Witness for C7 at a concrete saturated destination. -/
theorem enqueue_runs_flush_when_full_witness :
    (doveadm_mail_server_user_dispatch 1 true
        (doveadm_server_flush_one id (fun _ => false) 3) "u"
        { name := "h", hostname := "h", ip := none, port := 0,
          ssl_flags := SslFlags.zero, connections := [false],
          queue := ["q"] }).2 =
      .enqueued (decide ((["q"] : List String).length ≥
        DOVEADM_SERVER_QUEUE_MAX)) ∧
    (doveadm_mail_server_user_dispatch 1 true
        (doveadm_server_flush_one id (fun _ => false) 3) "u"
        { name := "h", hostname := "h", ip := none, port := 0,
          ssl_flags := SslFlags.zero, connections := [false],
          queue := ["q"] }).1.queue =
      (if (["q"] : List String).length ≥ DOVEADM_SERVER_QUEUE_MAX then
          doveadm_server_flush_one id (fun _ => false) 3
            { name := "h", hostname := "h", ip := none, port := 0,
              ssl_flags := SslFlags.zero, connections := [false],
              queue := ["q"] }
        else
          { name := "h", hostname := "h", ip := none, port := 0,
            ssl_flags := SslFlags.zero, connections := [false],
            queue := ["q"] }).queue ++ ["u"] ∧
    ((["q"] : List String).length < DOVEADM_SERVER_QUEUE_MAX →
      (doveadm_mail_server_user_dispatch 1 true
          (doveadm_server_flush_one id (fun _ => false) 3) "u"
          { name := "h", hostname := "h", ip := none, port := 0,
            ssl_flags := SslFlags.zero, connections := [false],
            queue := ["q"] }).1.queue = ["q"] ++ ["u"]) :=
  enqueue_runs_flush_when_full 1 true id (fun _ => false) 3 "u"
    { name := "h", hostname := "h", ip := none, port := 0,
      ssl_flags := SslFlags.zero, connections := [false], queue := ["q"] }
    rfl (by decide)

theorem callbackStep_queue (i : Nat) (s : DoveadmServer) :
    (callbackStep i s).2.toList ++ (callbackStep i s).1.queue = s.queue := by
  unfold callbackStep doveadm_cmd_callback_drain
  cases hq : s.queue with
  | nil => simp
  | cons u rest =>
    split
    · rename_i heq
      exact List.noConfusion heq
    · rename_i x un rs heq
      injection heq with h1 h2
      subst h1
      subst h2
      split
      · simp
      · simp

theorem callbackTrace_queue (evs : List Nat) (s : DoveadmServer) :
    (callbackTrace evs s).2 ++ (callbackTrace evs s).1.queue = s.queue := by
  induction evs generalizing s with
  | nil => simp [callbackTrace]
  | cons i evs ih =>
    simp only [callbackTrace]
    rw [List.append_assoc, ih (callbackStep i s).1, callbackStep_queue]

/-- C8: per-destination queue service is FIFO — on a completion with a
non-empty queue and an idle connection, the reply callback pops exactly
the queue's front username and dispatches it; and over any sequence of
completion events, the dispatched usernames followed by the remaining
queue equal the original queue, so usernames are dispatched exactly in
enqueue order (one enqueued earlier is dispatched no later). -/
theorem callback_queue_fifo :
    (∀ s : DoveadmServer, s.queue ≠ [] → hasIdleConn s = true →
       (doveadm_cmd_callback_drain s).2 = s.queue.head? ∧
       (doveadm_cmd_callback_drain s).1.queue = s.queue.tail) ∧
    (∀ (evs : List Nat) (s : DoveadmServer),
       (callbackTrace evs s).2 ++ (callbackTrace evs s).1.queue =
         s.queue) := by
  refine ⟨?_, callbackTrace_queue⟩
  intro s hq hidle
  cases hqe : s.queue with
  | nil => exact absurd hqe hq
  | cons u rest =>
    constructor
    · simp [doveadm_cmd_callback_drain, hqe, hidle]
    · simp [doveadm_cmd_callback_drain, hqe, hidle]

/-- Witness for C8 at a concrete destination with a queued user and an
idle connection. -/
theorem callback_queue_fifo_witness :
    (doveadm_cmd_callback_drain
        { name := "h", hostname := "h", ip := none, port := 0,
          ssl_flags := SslFlags.zero, connections := [true],
          queue := ["A", "B"] }).2 = (["A", "B"] : List String).head? ∧
    (doveadm_cmd_callback_drain
        { name := "h", hostname := "h", ip := none, port := 0,
          ssl_flags := SslFlags.zero, connections := [true],
          queue := ["A", "B"] }).1.queue =
      (["A", "B"] : List String).tail :=
  callback_queue_fifo.1
    { name := "h", hostname := "h", ip := none, port := 0,
      ssl_flags := SslFlags.zero, connections := [true],
      queue := ["A", "B"] } (by simp) rfl
